import Mathlib

/-
Shallow embedding of src/optimizer/rules/rules.py of the eva repository:
the pattern-matching algorithm, the rewrite and implementation rules, the
RuleType / Promise enumerations and the rules registry.
-/

namespace Eva

/-- Operator-type tags referenced by rules.py (OperatorType is imported
there from src.optimizer.operators; the tags listed are exactly the ones
rules.py uses). -/
inductive OperatorType where
  | DUMMY
  | LOGICALGET
  | LOGICALFILTER
  | LOGICALPROJECT
  | LOGICALCREATE
  | LOGICALCREATEUDF
  | LOGICALINSERT
  | LOGICALLOADDATA
deriving DecidableEq

/-- Modelled from the spec: src/optimizer/rules/pattern.py is not under
src/.  Per spec section 3, a Pattern is an operator-type tag together with
an ordered sequence of child Patterns (Pattern(tag) builds a node with no
children, append_child appends one child). -/
inductive Pattern where
  | mk (opr_type : OperatorType) (children : List Pattern)

def Pattern.opr_type : Pattern → OperatorType
  | .mk t _ => t

def Pattern.children : Pattern → List Pattern
  | .mk _ cs => cs

/-- Modelled from the spec: the memoized logical expression returned by
group.get_logical_expr() (spec section 6) — an operator tag (grp_expr.opr.type)
plus the ordered list of child group ids (grp_expr.children). -/
structure GroupExpr where
  oprType : OperatorType
  children : List Nat
deriving DecidableEq

/-- Modelled from the spec: context.memo.get_group(id).get_logical_expr()
composed — resolving a group id yields either its stored logical expression
or absent (None). -/
abbrev MemoContext := Nat → Option GroupExpr

mutual
/-- Rule._compare_expr_with_pattern (rules.py lines 101-124): resolve the
group's logical expression (None means no match); fail if the operator tag
differs from the pattern's tag or the child counts differ; otherwise AND
the recursive comparison over the zipped (child group id, child pattern)
pairs. -/
def compareExprWithPattern (ctx : MemoContext) : Pattern → Nat → Bool
  | Pattern.mk t pcs, grp_id =>
    match ctx grp_id with
    | none => false
    | some e =>
      if e.oprType ≠ t ∨ e.children.length ≠ pcs.length then false
      else compareChildren ctx e.children pcs

/-- The accumulated AND over zip(grp_expr.children, pattern.children) in
the loop of Rule._compare_expr_with_pattern; zip truncates at the shorter
list, and the accumulator starts at True. -/
def compareChildren (ctx : MemoContext) : List Nat → List Pattern → Bool
  | _, [] => true
  | [], _ :: _ => true
  | c :: cs, p :: ps =>
      compareExprWithPattern ctx p c && compareChildren ctx cs ps
end

/-- Rule.top_match (rules.py lines 126-127): compare the node's operator
type with the pattern's root tag, nothing else. -/
def top_match (p : Pattern) (oprType : OperatorType) : Bool :=
  decide (oprType = p.opr_type)

mutual
/-- Follows the spec's words, for comparison with compareExprWithPattern
(refinement check): deep_match is true iff the group holds an expression
whose operator tag equals the pattern's tag OR the pattern's tag is the
wildcard (the placeholder tag DUMMY), whose child-group count equals the
pattern's child count, and all aligned child pairs match recursively. -/
def specDeepMatch (ctx : MemoContext) : Pattern → Nat → Bool
  | Pattern.mk t pcs, grp_id =>
    match ctx grp_id with
    | none => false
    | some e =>
      if (t = OperatorType.DUMMY ∨ e.oprType = t) ∧
          e.children.length = pcs.length
      then specDeepMatchChildren ctx e.children pcs
      else false

/-- Child recursion of specDeepMatch, following the spec's words. -/
def specDeepMatchChildren (ctx : MemoContext) : List Nat → List Pattern → Bool
  | _, [] => true
  | [], _ :: _ => true
  | c :: cs, p :: ps =>
      specDeepMatch ctx p c && specDeepMatchChildren ctx cs ps
end

/-- A logical operator node as rules.py touches it: the operator tag, the
attribute slots the rules read or write (predicate, target_list,
select_list, dataset_metadata — distinct Python attribute names are
distinct slots) and the ordered child node ids.  Attribute payloads are
opaque to the rules and represented as Nat. -/
structure Opr where
  type : OperatorType
  predicate : Option Nat
  target_list : Option Nat
  select_list : Option Nat
  dataset_metadata : Option Nat
  children : List Nat
deriving DecidableEq

/-- The heap of operator nodes: Python objects addressed by id.  In-place
attribute assignment is an update of the store at that id, observable
through every alias of the node. -/
abbrev OprStore := Nat → Opr

/-- In-place assignment logical_get.predicate = v on the node at id. -/
def setPredicate (s : OprStore) (id : Nat) (v : Option Nat) : OprStore :=
  fun n =>
    if n = id then
      Opr.mk (s id).type v (s id).target_list (s id).select_list
        (s id).dataset_metadata (s id).children
    else s n

/-- In-place assignment logical_get.target_list = v on the node at id. -/
def setTargetList (s : OprStore) (id : Nat) (v : Option Nat) : OprStore :=
  fun n =>
    if n = id then
      Opr.mk (s id).type (s id).predicate v (s id).select_list
        (s id).dataset_metadata (s id).children
    else s n

/-- Replacement of the child list of the node at id (the driver's
reinsertion of a rewritten subtree, spec section 2). -/
def setChildren (s : OprStore) (id : Nat) (cs : List Nat) : OprStore :=
  fun n =>
    if n = id then
      Opr.mk (s id).type (s id).predicate (s id).target_list
        (s id).select_list (s id).dataset_metadata cs
    else s n

/-- EmbedFilterIntoGet.apply (rules.py lines 174-178): read the filter's
predicate, take its first child, assign the predicate onto that child node
in place, and return that same child's id.  none models the exception a
malformed input (no child) would raise. -/
def EmbedFilterIntoGet.apply (s : OprStore) (before : Nat) :
    Option (OprStore × Nat) :=
  match (s before).children with
  | [] => none
  | c :: _ => some (setPredicate s c (s before).predicate, c)

/-- EmbedProjectIntoGet.apply (rules.py lines 194-198): read the project's
target_list, take its first child, assign the list onto that child node's
target_list in place, and return that same child's id. -/
def EmbedProjectIntoGet.apply (s : OprStore) (before : Nat) :
    Option (OprStore × Nat) :=
  match (s before).children with
  | [] => none
  | c :: _ => some (setTargetList s c (s before).target_list, c)

/-- Physical plan nodes built by LogicalGetToSeqScan.apply.  Modelled from
the spec for the externally defined SeqScanPlan / StoragePlan classes: a
sequential-scan node carries a predicate and an output-column list and a
list of children (append_child appends); a storage-access node carries the
dataset's storage metadata. -/
inductive Plan where
  | seqScan (predicate : Option Nat) (columns : Option Nat)
      (children : List Plan)
  | storage (metadata : Option Nat)

/-- LogicalGetToSeqScan.apply (rules.py lines 292-295): build
SeqScanPlan(before.predicate, before.select_list) and append
StoragePlan(before.dataset_metadata) as its sole child. -/
def LogicalGetToSeqScan.apply (s : OprStore) (before : Nat) : Plan :=
  Plan.seqScan (s before).predicate (s before).select_list
    [Plan.storage (s before).dataset_metadata]

/-
RuleType and Promise (rules.py lines 34-73): Python IntFlag enumerations;
enum.auto() assigns successive powers of two in declaration order.
-/

def RuleType.EMBED_FILTER_INTO_GET : Nat := 1
def RuleType.EMBED_PROJECT_INTO_GET : Nat := 2
def RuleType.REWRITE_DELIMETER : Nat := 4
def RuleType.LOGICAL_INSERT_TO_PHYSICAL : Nat := 8
def RuleType.LOGICAL_LOAD_TO_PHYSICAL : Nat := 16
def RuleType.LOGICAL_CREATE_TO_PHYSICAL : Nat := 32
def RuleType.LOGICAL_CREATE_UDF_TO_PHYSICAL : Nat := 64
def RuleType.LOGICAL_GET_TO_SEQSCAN : Nat := 128
def RuleType.IMPLEMENTATION_DELIMETER : Nat := 256

/-- The values of the RuleType enumeration in declaration order
(rules.py lines 34-53), delimiter sentinels included. -/
def ruleTypeValues : List Nat :=
  [RuleType.EMBED_FILTER_INTO_GET, RuleType.EMBED_PROJECT_INTO_GET,
   RuleType.REWRITE_DELIMETER, RuleType.LOGICAL_INSERT_TO_PHYSICAL,
   RuleType.LOGICAL_LOAD_TO_PHYSICAL, RuleType.LOGICAL_CREATE_TO_PHYSICAL,
   RuleType.LOGICAL_CREATE_UDF_TO_PHYSICAL, RuleType.LOGICAL_GET_TO_SEQSCAN,
   RuleType.IMPLEMENTATION_DELIMETER]

def Promise.LOGICAL_INSERT_TO_PHYSICAL : Nat := 1
def Promise.LOGICAL_LOAD_TO_PHYSICAL : Nat := 2
def Promise.LOGICAL_CREATE_TO_PHYSICAL : Nat := 4
def Promise.LOGICAL_CREATE_UDF_TO_PHYSICAL : Nat := 8
def Promise.LOGICAL_PROJECT_TO_PHYSICAL : Nat := 16
def Promise.LOGICAL_GET_TO_SEQSCAN : Nat := 32
def Promise.EMBED_FILTER_INTO_GET : Nat := 64
def Promise.EMBED_PROJECT_INTO_GET : Nat := 128
def Promise.UDF_LTOR : Nat := 256

/-- The classification data of a registered rule: the rule_type passed to
Rule.__init__ and the Promise value its promise() method returns. -/
structure RuleSpec where
  rule_type : Nat
  promise : Nat
deriving DecidableEq

/-- RulesManager._rewrite_rules (rules.py line 312):
EmbedFilterIntoGet, EmbedProjectIntoGet, in registration order. -/
def RulesManager.rewrite_rules : List RuleSpec :=
  [RuleSpec.mk RuleType.EMBED_FILTER_INTO_GET Promise.EMBED_FILTER_INTO_GET,
   RuleSpec.mk RuleType.EMBED_PROJECT_INTO_GET Promise.EMBED_PROJECT_INTO_GET]

/-- RulesManager._implementation_rules (rules.py lines 313-317):
LogicalCreateToPhysical, LogicalCreateUDFToPhysical,
LogicalInsertToPhysical, LogicalLoadToPhysical, LogicalGetToSeqScan, in
registration order. -/
def RulesManager.implementation_rules : List RuleSpec :=
  [RuleSpec.mk RuleType.LOGICAL_CREATE_TO_PHYSICAL
     Promise.LOGICAL_CREATE_TO_PHYSICAL,
   RuleSpec.mk RuleType.LOGICAL_CREATE_UDF_TO_PHYSICAL
     Promise.LOGICAL_CREATE_UDF_TO_PHYSICAL,
   RuleSpec.mk RuleType.LOGICAL_INSERT_TO_PHYSICAL
     Promise.LOGICAL_INSERT_TO_PHYSICAL,
   RuleSpec.mk RuleType.LOGICAL_LOAD_TO_PHYSICAL
     Promise.LOGICAL_LOAD_TO_PHYSICAL,
   RuleSpec.mk RuleType.LOGICAL_GET_TO_SEQSCAN
     Promise.LOGICAL_GET_TO_SEQSCAN]

/-- A memo in which every group stores a childless LOGICALGET expression. -/
def ctxGetLeaf : MemoContext :=
  fun _ => some (GroupExpr.mk OperatorType.LOGICALGET [])

/-- A memo in which every group stores a LOGICALGET expression with one
child group. -/
def ctxGetOneChild : MemoContext :=
  fun _ => some (GroupExpr.mk OperatorType.LOGICALGET [1])

/-- A memo in which every group is empty (no logical expression yet). -/
def ctxAbsent : MemoContext := fun _ => none

/-- Heap for the filter-pushdown scenario: node 0 is a LOGICALFILTER with
predicate 7 whose child is node 1, a LOGICALGET with select_list 9 and
dataset_metadata 11 and no predicate. -/
def storeFG : OprStore := fun n =>
  if n = 0 then Opr.mk OperatorType.LOGICALFILTER (some 7) none none none [1]
  else if n = 1 then
    Opr.mk OperatorType.LOGICALGET none none (some 9) (some 11) []
  else Opr.mk OperatorType.DUMMY none none none none []

/-- Heap for the projection-pushdown scenario: node 0 is a LOGICALPROJECT
with target_list 5 whose child is node 1, a LOGICALGET with select_list 9
and dataset_metadata 11. -/
def storePG : OprStore := fun n =>
  if n = 0 then Opr.mk OperatorType.LOGICALPROJECT none (some 5) none none [1]
  else if n = 1 then
    Opr.mk OperatorType.LOGICALGET none none (some 9) (some 11) []
  else Opr.mk OperatorType.DUMMY none none none none []

/-- Heap for the composed pushdown scenario with arbitrary payloads:
node 0 = Project(target_list = c, child 1), node 1 = Filter(predicate = p,
child 2), node 2 = Get(dataset_metadata = m, no predicate, no lists). -/
def storePFG (p c m : Nat) : OprStore := fun n =>
  if n = 0 then Opr.mk OperatorType.LOGICALPROJECT none (some c) none none [1]
  else if n = 1 then
    Opr.mk OperatorType.LOGICALFILTER (some p) none none none [2]
  else Opr.mk OperatorType.LOGICALGET none none none (some m) []

/-
Theorems.
-/

/-- The child loop of Rule._compare_expr_with_pattern succeeds iff every
zipped (child group id, child pattern) pair matches. -/
theorem compareChildren_eq_true_iff (ctx : MemoContext) (cs : List Nat)
    (ps : List Pattern) :
    compareChildren ctx cs ps = true ↔
      ∀ pr ∈ cs.zip ps, compareExprWithPattern ctx pr.2 pr.1 = true := by
  induction cs generalizing ps with
  | nil => cases ps <;> simp [compareChildren]
  | cons c cs ih =>
    cases ps with
    | nil => simp [compareChildren]
    | cons p ps =>
      simp [compareChildren, Bool.and_eq_true, ih, List.zip_cons_cons]

/-- Characterization of Rule._compare_expr_with_pattern: it succeeds iff
the group stores an expression whose tag equals the pattern's tag, whose
child count equals the pattern's child count, and all aligned child pairs
match recursively.  The tag comparison is plain equality: no tag acts as a
wildcard. -/
theorem compareExprWithPattern_eq_true_iff (ctx : MemoContext) (p : Pattern)
    (g : Nat) :
    compareExprWithPattern ctx p g = true ↔
      ∃ e, ctx g = some e ∧ e.oprType = p.opr_type ∧
        e.children.length = p.children.length ∧
        ∀ pr ∈ e.children.zip p.children,
          compareExprWithPattern ctx pr.2 pr.1 = true := by
  obtain ⟨t, pcs⟩ := p
  simp only [compareExprWithPattern, Pattern.opr_type, Pattern.children]
  cases hctx : ctx g with
  | none => simp
  | some e =>
    dsimp only
    by_cases h : e.oprType ≠ t ∨ e.children.length ≠ pcs.length
    · simp only [if_pos h]
      constructor
      · intro hF; cases hF
      · rintro ⟨e', he', h1, h2, -⟩
        have : e = e' := by injection he'
        subst this
        rcases h with h | h
        · exact absurd h1 h
        · exact absurd h2 h
    · push_neg at h
      have hcond : ¬(e.oprType ≠ t ∨ e.children.length ≠ pcs.length) := by
        push_neg
        exact h
      rw [if_neg hcond, compareChildren_eq_true_iff]
      constructor
      · intro hall
        exact ⟨e, rfl, h.1, h.2, hall⟩
      · rintro ⟨e', he', -, -, hall⟩
        have : e = e' := by injection he'
        subst this
        exact hall

/-- C1 counterexample: a pattern whose tag is the DUMMY placeholder (the
wildcard of the claim) does not match a group holding a LOGICALGET
expression, although the spec-side matcher (tag equal or wildcard, counts
equal, children match) accepts it: deep_match implements no wildcard. -/
theorem C1_wildcard_counterexample :
    specDeepMatch ctxGetLeaf (Pattern.mk OperatorType.DUMMY []) 0 = true ∧
    compareExprWithPattern ctxGetLeaf (Pattern.mk OperatorType.DUMMY []) 0 =
      false := by
  exact ⟨rfl, rfl⟩

/-- C1 (amended): deep_match returns true iff the group holds a logical
expression whose operator tag equals p.operator_tag exactly (the DUMMY
placeholder is compared literally; there is no wildcard exception), whose
child-group count equals the pattern's child count, and every aligned
(child-group, child-pattern) pair recursively matches. -/
theorem C1_deep_match_iff (ctx : MemoContext) (p : Pattern) (g : Nat) :
    compareExprWithPattern ctx p g = true ↔
      ∃ e, ctx g = some e ∧ e.oprType = p.opr_type ∧
        e.children.length = p.children.length ∧
        ∀ pr ∈ e.children.zip p.children,
          compareExprWithPattern ctx pr.2 pr.1 = true :=
  compareExprWithPattern_eq_true_iff ctx p g

/-- C3 counterexample: a pattern with empty children and tag LOGICALGET is
offered a group whose LOGICALGET expression has one child group; the tag
comparison passes, yet deep_match returns false because the child counts
differ — an empty-children pattern does not match "any subtree here". -/
theorem C3_empty_children_counterexample :
    ctxGetOneChild 0 = some (GroupExpr.mk OperatorType.LOGICALGET [1]) ∧
    compareExprWithPattern ctxGetOneChild
      (Pattern.mk OperatorType.LOGICALGET []) 0 = false := by
  exact ⟨rfl, rfl⟩

/-- C3 (amended): a pattern with an empty children sequence matches a
group iff the group's stored expression passes the tag comparison and
itself has zero child groups (the child-count check applies uniformly). -/
theorem C3_empty_children_iff (ctx : MemoContext) (p : Pattern) (g : Nat)
    (hp : p.children = []) :
    compareExprWithPattern ctx p g = true ↔
      ∃ e, ctx g = some e ∧ e.oprType = p.opr_type ∧ e.children = [] := by
  rw [compareExprWithPattern_eq_true_iff, hp]
  constructor
  · rintro ⟨e, he, ht, hl, -⟩
    exact ⟨e, he, ht, List.length_eq_zero.mp (by simpa using hl)⟩
  · rintro ⟨e, he, ht, hc⟩
    exact ⟨e, he, ht, by simp [hc], by simp [hc]⟩

/-- Witness for C3 (amended) at a concrete input: the leaf pattern
LOGICALGET matches a group storing a childless LOGICALGET expression. -/
theorem C3_empty_children_iff_witness :
    compareExprWithPattern ctxGetLeaf
      (Pattern.mk OperatorType.LOGICALGET []) 0 = true :=
  (C3_empty_children_iff ctxGetLeaf (Pattern.mk OperatorType.LOGICALGET [])
      0 rfl).mpr
    ⟨GroupExpr.mk OperatorType.LOGICALGET [], rfl, rfl, rfl⟩

/-- C4: when the group resolves to no logical expression, deep_match
returns false — an ordinary non-match computed totally, not an error —
for every pattern, the DUMMY (wildcard) tag included. -/
theorem C4_absent_group_no_match (ctx : MemoContext) (p : Pattern) (g : Nat)
    (h : ctx g = none) : compareExprWithPattern ctx p g = false := by
  obtain ⟨t, pcs⟩ := p
  simp [compareExprWithPattern, h]

/-- Witness for C4 at a concrete input: the DUMMY-tagged pattern against
an empty memo group. -/
theorem C4_absent_group_no_match_witness :
    compareExprWithPattern ctxAbsent (Pattern.mk OperatorType.DUMMY []) 0 =
      false :=
  C4_absent_group_no_match ctxAbsent (Pattern.mk OperatorType.DUMMY []) 0 rfl

/-- C5: whenever a group's stored expression passes deep_match's
root-level checks against a pattern (expression present, tag equal, child
count equal), top_match on that expression's tag returns true; and
top_match computes exactly the plain tag-equality comparison used at
deep_match's root, so the two checks share identical (absent) wildcard
semantics. -/
theorem C5_top_match_root_agreement (ctx : MemoContext) (p : Pattern)
    (g : Nat) (e : GroupExpr) (_h1 : ctx g = some e)
    (h2 : e.oprType = p.opr_type)
    (_h3 : e.children.length = p.children.length) :
    top_match p e.oprType = true ∧
      ∀ t : OperatorType, top_match p t = decide (t = p.opr_type) := by
  refine ⟨?_, fun t => rfl⟩
  simp [top_match, h2]

/-- Witness for C5 at a concrete input: a childless LOGICALGET expression
against the leaf pattern LOGICALGET. -/
theorem C5_top_match_root_agreement_witness :
    top_match (Pattern.mk OperatorType.LOGICALGET [])
      (GroupExpr.mk OperatorType.LOGICALGET []).oprType = true :=
  (C5_top_match_root_agreement ctxGetLeaf
      (Pattern.mk OperatorType.LOGICALGET []) 0
      (GroupExpr.mk OperatorType.LOGICALGET []) rfl rfl rfl).1

/-- C2: contrary to the claim, the pushdown applies patch state shared
with the input tree: EmbedFilterIntoGet.apply on Filter(7, Get) returns
the id of the input's existing child (node 1, no new node is built) and
the node stored at that id has changed — its predicate slot, none in the
input heap, is overwritten in place with the filter's predicate 7;
EmbedProjectIntoGet.apply does the same to the target_list slot. -/
theorem C2_apply_mutates_input :
    (EmbedFilterIntoGet.apply storeFG 0).map Prod.snd = some 1 ∧
    (EmbedFilterIntoGet.apply storeFG 0).map (fun r => r.1 1) =
      some (Opr.mk OperatorType.LOGICALGET (some 7) none (some 9) (some 11)
        []) ∧
    storeFG 1 ≠
      Opr.mk OperatorType.LOGICALGET (some 7) none (some 9) (some 11) [] ∧
    (EmbedProjectIntoGet.apply storePG 0).map Prod.snd = some 1 ∧
    (EmbedProjectIntoGet.apply storePG 0).map (fun r => r.1 1) =
      some (Opr.mk OperatorType.LOGICALGET none (some 5) (some 9) (some 11)
        []) ∧
    storePG 1 ≠
      Opr.mk OperatorType.LOGICALGET none (some 5) (some 9) (some 11) [] := by
  refine ⟨rfl, rfl, by decide, rfl, rfl, by decide⟩

/-- C7: on Project(c, Filter(p, Get(metadata m))), applying filter
pushdown at the filter node, letting the driver reinsert the returned
access node as the project's child, then applying projection pushdown at
the project node, yields the access node carrying both predicate p and
target_list c (and its metadata m untouched): each pushdown writes only
its own slot. -/
theorem C7_pushdown_compose (p c m : Nat) :
    ((EmbedFilterIntoGet.apply (storePFG p c m) 1).bind
        (fun r => EmbedProjectIntoGet.apply (setChildren r.1 0 [r.2]) 0)).map
        (fun r => (r.2, (r.1 r.2).type, (r.1 r.2).predicate,
          (r.1 r.2).target_list, (r.1 r.2).dataset_metadata)) =
      some (2, OperatorType.LOGICALGET, some p, some c, some m) := rfl

/-- C8: projection pushdown writes the access operator's target_list slot
(here the column list 5), but LogicalGetToSeqScan.apply builds the scan
plan from the select_list slot: the produced plan's output-column slot is
the operator's select_list 9, not the pushed list 5 (the metadata 11 does
reach the sole storage child). -/
theorem C8_seqscan_reads_select_list :
    (EmbedProjectIntoGet.apply storePG 0).map
        (fun r => (r.1 r.2).target_list) = some (some 5) ∧
    (EmbedProjectIntoGet.apply storePG 0).map
        (fun r => LogicalGetToSeqScan.apply r.1 r.2) =
      some (Plan.seqScan none (some 9) [Plan.storage (some 11)]) ∧
    (5 : Nat) ≠ 9 := by
  refine ⟨rfl, rfl, by decide⟩

/-- C6: a registered rule's rule_type is below REWRITE_DELIMETER iff the
rule is in the rewrite collection, strictly between REWRITE_DELIMETER and
IMPLEMENTATION_DELIMETER iff it is in the implementation collection, and
every registered rule falls in one of the two ranges. -/
theorem C6_registry_partition :
    ∀ r ∈ RulesManager.rewrite_rules ++ RulesManager.implementation_rules,
      (r.rule_type < RuleType.REWRITE_DELIMETER ↔
        r ∈ RulesManager.rewrite_rules) ∧
      ((RuleType.REWRITE_DELIMETER < r.rule_type ∧
          r.rule_type < RuleType.IMPLEMENTATION_DELIMETER) ↔
        r ∈ RulesManager.implementation_rules) ∧
      (r.rule_type < RuleType.REWRITE_DELIMETER ∨
        (RuleType.REWRITE_DELIMETER < r.rule_type ∧
          r.rule_type < RuleType.IMPLEMENTATION_DELIMETER)) := by
  decide

/-- Witness for C6 at a concrete registered rule (EmbedFilterIntoGet). -/
theorem C6_registry_partition_witness :
    (RuleSpec.mk RuleType.EMBED_FILTER_INTO_GET
        Promise.EMBED_FILTER_INTO_GET).rule_type <
        RuleType.REWRITE_DELIMETER ↔
      RuleSpec.mk RuleType.EMBED_FILTER_INTO_GET
        Promise.EMBED_FILTER_INTO_GET ∈ RulesManager.rewrite_rules :=
  (C6_registry_partition
    (RuleSpec.mk RuleType.EMBED_FILTER_INTO_GET Promise.EMBED_FILTER_INTO_GET)
    (by decide)).1

/-- C9: the nine RuleType values (delimiter sentinels included) are, in
declaration order, exactly the powers of two 2^0 .. 2^8: each value has
exactly one bit set, all values are distinct, and no bit is shared between
two values. -/
theorem C9_ruletype_distinct_powers_of_two :
    ruleTypeValues = (List.range 9).map (fun k => 2 ^ k) ∧
      ruleTypeValues.Nodup := by
  refine ⟨by decide, by decide⟩

/-- C10: every rewrite rule's promise() value is strictly greater than
every implementation rule's promise() value. -/
theorem C10_rewrite_promise_gt_implementation :
    ∀ r ∈ RulesManager.rewrite_rules,
      ∀ i ∈ RulesManager.implementation_rules, i.promise < r.promise := by
  decide

/-- Witness for C10 at a concrete pair: EmbedFilterIntoGet's promise
against LogicalCreateToPhysical's promise. -/
theorem C10_rewrite_promise_gt_implementation_witness :
    (RuleSpec.mk RuleType.LOGICAL_CREATE_TO_PHYSICAL
        Promise.LOGICAL_CREATE_TO_PHYSICAL).promise <
      (RuleSpec.mk RuleType.EMBED_FILTER_INTO_GET
        Promise.EMBED_FILTER_INTO_GET).promise :=
  C10_rewrite_promise_gt_implementation
    (RuleSpec.mk RuleType.EMBED_FILTER_INTO_GET Promise.EMBED_FILTER_INTO_GET)
    (by decide)
    (RuleSpec.mk RuleType.LOGICAL_CREATE_TO_PHYSICAL
      Promise.LOGICAL_CREATE_TO_PHYSICAL)
    (by decide)

end Eva
